import Mathlib

/-!
Verification of the py-usvfs wrapper (`usvfs/usvfs_wrapper.py`).

The Python module is shallowly embedded: classes become structures, methods
become pure functions, mutation becomes explicit state passing, exceptions
become `Except`, and every call into the external `usvfs._usvfs_dll` driver
is recorded in a trace of `DriverCall` events.  The driver itself is external
to the repository; its responses are modelled by a `Driver` oracle record.
-/

namespace Usvfs

/-- Python exceptions raised by the wrapper.  `usvfsException` is the source's
`USVFSException`; `typeError` and `attributeError` are the builtin Python
exception types the wrapper raises.  The message string is kept, because the
source distinguishes error situations only by their message. -/
inductive Err where
  | typeError (msg : String)
  | attributeError (msg : String)
  | usvfsException (msg : String)
deriving Repr, DecidableEq

/-- A dynamically typed Python value, as far as the wrapper's setters inspect
one: `type(value) is bool` holds exactly for `pybool`.  (Python booleans are
the only values whose concrete class is `bool`; in particular integers are
rejected by the `type(value) is not bool` checks, with no coercion.) -/
inductive PyVal where
  | pybool (b : Bool)
  | pyint (n : Int)
  | pystr (s : String)
  | pynone
deriving Repr, DecidableEq

/-- Models the external `os.path.abspath` relative to a current working
directory: an absolute path (leading separator) is returned unchanged, a
relative path is joined onto the cwd.  (The Python stdlib is outside the
repository; only these two facts about it are used.) -/
def abspath (cwd p : String) : String :=
  if p.data.head? == some '/' then p else cwd ++ "/" ++ p

/-- Models Python's `str.startswith`: a character-wise prefix test. -/
def startswith (s pre : String) : Bool :=
  pre.data.isPrefixOf s.data

/-! ### Link flag constants

Modelled from the spec: the four named flag semantics of the external
`usvfs._usvfs_dll` module, "each mapped to one bit; independent bits"
(the dll is not part of the repository, so the concrete values are the
usvfs LINKFLAG bit assignments). -/

def LINKFLAG_FAILIFEXISTS : Nat := 1

def LINKFLAG_MONITORCHANGES : Nat := 2

def LINKFLAG_CREATETARGET : Nat := 4

def LINKFLAG_RECURSIVE : Nat := 8

/-- State of a `_VirtualLink` object (base class of `VirtualFile` and
`VirtualDirectory`; the subclasses add no fields, only the flag defaults and
which flag properties are exposed).  `link_flags` is the "(unsigned) int
bitflag" of the source docstring. -/
structure VirtualLink where
  real_path : String
  virtual_path : String
  is_directory : Bool
  link_flags : Nat
deriving Repr, DecidableEq

/-- The common body of the four flag property getters:
`(self.link_flags & dll.LINKFLAG_X) != 0`. -/
def getFlagBit (c : Nat) (l : VirtualLink) : Bool :=
  l.link_flags &&& c != 0

/-- The common body of the four flag property setters:
type-check the argument (`type(value) is not bool` raises `TypeError`),
return unchanged if the flag already has the requested value, otherwise
`link_flags |= c` to set or `link_flags &= ~c` to clear (`Nat.ldiff` is
bitwise and-not, which is what `& ~c` computes on a nonnegative int). -/
def setFlagBit (c : Nat) (l : VirtualLink) (value : PyVal) : Except Err VirtualLink :=
  match value with
  | .pybool v =>
    if getFlagBit c l = v then
      .ok l
    else if v then
      .ok { l with link_flags := l.link_flags ||| c }
    else
      .ok { l with link_flags := Nat.ldiff l.link_flags c }
  | _ => .error (.typeError "Property must be a bool")

/-- The four named flag properties of the wrapper's link rule classes.
`failIfExists` and `createTarget` live on `_VirtualLink`;
`recursiveLink` and `monitorChanges` are the `VirtualDirectory` properties
`link_recursively` and `monitor_changes`. -/
inductive FlagName where
  | failIfExists
  | createTarget
  | recursiveLink
  | monitorChanges
deriving Repr, DecidableEq

/-- The dll bit constant each named flag property operates on. -/
def flagConst : FlagName → Nat
  | .failIfExists => LINKFLAG_FAILIFEXISTS
  | .createTarget => LINKFLAG_CREATETARGET
  | .recursiveLink => LINKFLAG_RECURSIVE
  | .monitorChanges => LINKFLAG_MONITORCHANGES

/-- Bit position of each named flag's constant: `flagConst fn = 2 ^ flagBitIndex fn`. -/
def flagBitIndex : FlagName → Nat
  | .failIfExists => 0
  | .createTarget => 2
  | .recursiveLink => 3
  | .monitorChanges => 1

/-- Uniform access to the four flag property getters. -/
def getFlag (fn : FlagName) (l : VirtualLink) : Bool :=
  getFlagBit (flagConst fn) l

/-- Uniform access to the four flag property setters. -/
def setFlag (fn : FlagName) (l : VirtualLink) (value : PyVal) : Except Err VirtualLink :=
  setFlagBit (flagConst fn) l value

/-- `_VirtualLink.link_fail_if_exists` property getter. -/
def link_fail_if_exists (l : VirtualLink) : Bool := getFlag .failIfExists l

/-- `_VirtualLink.link_fail_if_exists` property setter. -/
def set_link_fail_if_exists (l : VirtualLink) (v : PyVal) : Except Err VirtualLink :=
  setFlag .failIfExists l v

/-- `_VirtualLink.redirect_create` property getter. -/
def redirect_create (l : VirtualLink) : Bool := getFlag .createTarget l

/-- `_VirtualLink.redirect_create` property setter. -/
def set_redirect_create (l : VirtualLink) (v : PyVal) : Except Err VirtualLink :=
  setFlag .createTarget l v

/-- `VirtualDirectory.link_recursively` property getter. -/
def link_recursively (l : VirtualLink) : Bool := getFlag .recursiveLink l

/-- `VirtualDirectory.link_recursively` property setter. -/
def set_link_recursively (l : VirtualLink) (v : PyVal) : Except Err VirtualLink :=
  setFlag .recursiveLink l v

/-- `VirtualDirectory.monitor_changes` property getter. -/
def monitor_changes (l : VirtualLink) : Bool := getFlag .monitorChanges l

/-- `VirtualDirectory.monitor_changes` property setter. -/
def set_monitor_changes (l : VirtualLink) (v : PyVal) : Except Err VirtualLink :=
  setFlag .monitorChanges l v

/-- The guard of the `is_directory` setter tests
`isinstance(self, type(_VirtualLink))`.  `type(_VirtualLink)` is the
metaclass `type`, and `self` — the instance the property is assigned on —
is never itself a class, so the test is `False` for every link object. -/
def isinstance_of_metaclass (_ : VirtualLink) : Bool := false

/-- `_VirtualLink.is_directory` property setter.  Because
`isinstance_of_metaclass` is always false, the first guard always raises
`AttributeError` and the remaining body is unreachable. -/
def set_is_directory (l : VirtualLink) (value : PyVal) : Except Err VirtualLink :=
  if ¬ isinstance_of_metaclass l then
    .error (.attributeError "Property is_directory cannot be set")
  else
    match value with
    | .pybool v => .ok { l with is_directory := v }
    | _ => .error (.typeError "Property must be a bool")

/-- `_VirtualLink.__init__`: canonicalize both paths, store the discriminant
and the flag word. -/
def mkVirtualLink (cwd real_path virtual_path : String) (is_directory : Bool)
    (link_flags : Nat := 0) : VirtualLink :=
  { real_path := abspath cwd real_path
    virtual_path := abspath cwd virtual_path
    is_directory := is_directory
    link_flags := link_flags }

/-- `VirtualFile.__init__`: a link rule with `is_directory=False`. -/
def mkVirtualFile (cwd real_path virtual_path : String) : VirtualLink :=
  mkVirtualLink cwd real_path virtual_path false

/-- `VirtualDirectory.__init__`: a link rule with `is_directory=True`,
then `self.link_recursively = True` through the property setter (which
cannot fail on a genuine bool, hence the `getD`). -/
def mkVirtualDirectory (cwd real_path virtual_path : String) : VirtualLink :=
  let base := mkVirtualLink cwd real_path virtual_path true
  (set_link_recursively base (.pybool true)).toOption.getD base

/-! ### Mapping -/

/-- State of a `Mapping` object: the two internal rule lists. -/
structure Mapping where
  dirs : List VirtualLink
  files : List VirtualLink
deriving Repr, DecidableEq

/-- `Mapping.__init__`: both partitions start empty. -/
def Mapping.new : Mapping := ⟨[], []⟩

/-- `Mapping.link`: append the rule to `_dirs` or `_files` according to its
`is_directory` discriminant. -/
def Mapping.link (m : Mapping) (vl : VirtualLink) : Mapping :=
  if vl.is_directory then
    { m with dirs := m.dirs ++ [vl] }
  else
    { m with files := m.files ++ [vl] }

/-- `Mapping.directories`: the directory rules in insertion order (the Python
generator yields the underlying list without consuming it). -/
def Mapping.directories (m : Mapping) : List VirtualLink := m.dirs

/-- `Mapping.files`: the file rules in insertion order. -/
def Mapping.filesSeq (m : Mapping) : List VirtualLink := m.files

/-! ### The driver boundary

Calls into `usvfs._usvfs_dll` are recorded as `DriverCall` events; the dll's
responses are given by a `Driver` oracle, since the dll is external to the
repository. -/

/-- One call into the external dll, with the arguments the wrapper passes. -/
inductive DriverCall where
  | clearVirtualMappings
  | virtualLinkDirectoryStatic (real_path virtual_path : String) (flags : Nat)
  | virtualLinkFile (real_path virtual_path : String) (flags : Nat)
  | connectVFS
  | createVFS
  | disconnectVFS
  | initLogging (debug : Bool)
  | blacklistExecutable (name : String)
  | clearExecutableBlacklist
  | forceLoadLibrary (process_name library_path : String)
  | clearLibraryForceLoads
  | createProcessHooked (command_line working_directory : String)
  | getVFSProcessList
  | getCurrentVFSName
deriving Repr, DecidableEq

/-- Oracle for the external dll's responses. -/
structure Driver where
  /-- Return value of `dll.VirtualLinkDirectoryStatic`. -/
  linkDirOk : String → String → Nat → Bool
  /-- Return value of `dll.VirtualLinkFile`. -/
  linkFileOk : String → String → Nat → Bool
  /-- Return value of `dll.ConnectVFS`. -/
  connectOk : Bool
  /-- Return value of `dll.CreateVFS`. -/
  createOk : Bool
  /-- Return value of `dll.GetCurrentVFSName`. -/
  currentName : String
  /-- Return value of `dll.CreateProcessHooked`. -/
  processOk : String → String → Bool
  /-- Return value of `dll.GetVFSProcessList`. -/
  processList : List Int

/-! ### UserspaceVFS -/

/-- The parameter block built by `dll.USVFSInitParameters`.  Log level and
crash dump type are dll enumerations, modelled by their integral values. -/
structure USVFSParameters where
  instanceName : String
  debugMode : Bool
  logLevel : Nat
  crashDumpsType : Nat
  crashDumpPath : String
deriving Repr, DecidableEq

/-- Per-object state of a `UserspaceVFS` instance.  The class-level registry
`UserspaceVFS._instance_names` is process-wide mutable state and is passed
explicitly (as `registry`) to the constructor, the only method that reads or
writes it. -/
structure UserspaceVFS where
  params : USVFSParameters
  initializedFlag : Bool
deriving Repr, DecidableEq

/-- `UserspaceVFS.instance_name` property: reads the parameter block. -/
def UserspaceVFS.instance_name (s : UserspaceVFS) : String := s.params.instanceName

/-- `UserspaceVFS.__init__`.  Returns the updated process-wide registry
together with the construction result.  Note the source order: the conflict
check and the `append` come first, and the length check runs only after the
name has already been appended — so a failed length check still leaves the
name in the registry. -/
def usvfsInit (registry : List String) (instance_name : String)
    (debug_mode : Bool := false) (log_level : Nat := 0) (crash_dumps_type : Nat := 0)
    (crash_dump_path : String := "") : List String × Except Err UserspaceVFS :=
  if registry.contains instance_name then
    (registry, .error (.usvfsException "A usvfs instance with that instance name already exists!"))
  else
    let registry := registry ++ [instance_name]
    if instance_name.length > 64 then
      (registry, .error (.usvfsException "Instance names may not exceed 64 characters"))
    else
      (registry,
       .ok { params := { instanceName := instance_name
                         debugMode := debug_mode
                         logLevel := log_level
                         crashDumpsType := crash_dumps_type
                         crashDumpPath := crash_dump_path }
             initializedFlag := false })

/-- `UserspaceVFS.is_active_instance`: `False` without any driver call when
not initialized; otherwise ask the driver for the current instance name and
compare by prefix.  Returns the answer and the driver calls made. -/
def is_active_instance (drv : Driver) (s : UserspaceVFS) : Bool × List DriverCall :=
  if ¬ s.initializedFlag then
    (false, [])
  else
    (startswith drv.currentName s.instance_name, [.getCurrentVFSName])

/-- `UserspaceVFS._ensure_active_instance`: if not the active instance, try
one `ConnectVFS`; raise if that fails. -/
def ensure_active_instance (drv : Driver) (s : UserspaceVFS) :
    List DriverCall × Except Err Unit :=
  let a := is_active_instance drv s
  if a.1 then
    (a.2, .ok ())
  else if drv.connectOk then
    (a.2 ++ [.connectVFS], .ok ())
  else
    (a.2 ++ [.connectVFS], .error (.usvfsException "Could not connect to VFS"))

/-- `UserspaceVFS.initialize` (named `initializeVFS` here because
the source name is a Lean keyword): reject when already initialized,
otherwise `InitLogging` then `CreateVFS`; on driver success set the flag. -/
def initializeVFS (drv : Driver) (s : UserspaceVFS) :
    List DriverCall × Except Err UserspaceVFS :=
  if s.initializedFlag then
    ([], .error (.usvfsException "VFS is already initialized"))
  else
    let t := [DriverCall.initLogging s.params.debugMode, DriverCall.createVFS]
    if drv.createOk then
      (t, .ok { s with initializedFlag := true })
    else
      (t, .error (.usvfsException "Failed to initialize VFS - try enabling debugging"))

/-- `UserspaceVFS.close`: reject when not initialized, otherwise
`DisconnectVFS` and clear the flag.  (It does not touch the registry.) -/
def close (s : UserspaceVFS) : List DriverCall × Except Err UserspaceVFS :=
  if ¬ s.initializedFlag then
    ([], .error (.usvfsException "VFS is not initialized"))
  else
    ([.disconnectVFS], .ok { s with initializedFlag := false })

/-- The format string of `set_mapping`'s failure messages: the exact text is
`'Failed to link virtual <kind>\nreal path: {}\nvirtual path: {}\nflags: {}'`
with the failing rule's fields substituted. -/
def linkFailedMessage (kind real_path virtual_path : String) (flags : Nat) : String :=
  "Failed to link virtual " ++ kind ++ "\nreal path: " ++ real_path ++
    "\nvirtual path: " ++ virtual_path ++ "\nflags: " ++ toString flags

/-- The `dll.VirtualLinkDirectoryStatic` call issued for a directory rule. -/
def dirCall (d : VirtualLink) : DriverCall :=
  .virtualLinkDirectoryStatic d.real_path d.virtual_path d.link_flags

/-- The `dll.VirtualLinkFile` call issued for a file rule. -/
def fileCall (f : VirtualLink) : DriverCall :=
  .virtualLinkFile f.real_path f.virtual_path f.link_flags

/-- The first loop of `set_mapping`: link each directory rule in order,
aborting with the diagnostic message on the first driver failure. -/
def linkDirectories (drv : Driver) : List VirtualLink → List DriverCall × Except Err Unit
  | [] => ([], .ok ())
  | d :: ds =>
    if drv.linkDirOk d.real_path d.virtual_path d.link_flags then
      let r := linkDirectories drv ds
      (dirCall d :: r.1, r.2)
    else
      ([dirCall d],
       .error (.usvfsException
         (linkFailedMessage "directory" d.real_path d.virtual_path d.link_flags)))

/-- The second loop of `set_mapping`: link each file rule in order,
aborting with the diagnostic message on the first driver failure. -/
def linkFiles (drv : Driver) : List VirtualLink → List DriverCall × Except Err Unit
  | [] => ([], .ok ())
  | f :: fs =>
    if drv.linkFileOk f.real_path f.virtual_path f.link_flags then
      let r := linkFiles drv fs
      (fileCall f :: r.1, r.2)
    else
      ([fileCall f],
       .error (.usvfsException
         (linkFailedMessage "file" f.real_path f.virtual_path f.link_flags)))

/-- `UserspaceVFS.set_mapping`.  The argument is typed as `Mapping`, so the
`isinstance` guard holds by construction; then: reject when not initialized,
`_ensure_active_instance`, `ClearVirtualMappings`, the directory loop, and
(only if every directory rule linked) the file loop. -/
def set_mapping (drv : Driver) (s : UserspaceVFS) (m : Mapping) :
    List DriverCall × Except Err Unit :=
  if ¬ s.initializedFlag then
    ([], .error (.usvfsException "VFS is not initialized"))
  else
    let ea := ensure_active_instance drv s
    match ea.2 with
    | .error e => (ea.1, .error e)
    | .ok _ =>
      let ld := linkDirectories drv m.directories
      match ld.2 with
      | .error e => (ea.1 ++ [.clearVirtualMappings] ++ ld.1, .error e)
      | .ok _ =>
        let lf := linkFiles drv m.filesSeq
        (ea.1 ++ [.clearVirtualMappings] ++ ld.1 ++ lf.1, lf.2)

/-- `UserspaceVFS.clear_mapping`: reject when not initialized, ensure active,
clear driver-side rules. -/
def clear_mapping (drv : Driver) (s : UserspaceVFS) :
    List DriverCall × Except Err Unit :=
  if ¬ s.initializedFlag then
    ([], .error (.usvfsException "VFS is not initialized"))
  else
    let ea := ensure_active_instance drv s
    match ea.2 with
    | .error e => (ea.1, .error e)
    | .ok _ => (ea.1 ++ [.clearVirtualMappings], .ok ())

/-- `UserspaceVFS.blacklist_executable`: no initialized check — just
`_ensure_active_instance` and the dll call. -/
def blacklist_executable (drv : Driver) (s : UserspaceVFS) (executable_name : String) :
    List DriverCall × Except Err Unit :=
  let ea := ensure_active_instance drv s
  match ea.2 with
  | .error e => (ea.1, .error e)
  | .ok _ => (ea.1 ++ [.blacklistExecutable executable_name], .ok ())

/-- `UserspaceVFS.clear_blacklist`: no initialized check. -/
def clear_blacklist (drv : Driver) (s : UserspaceVFS) :
    List DriverCall × Except Err Unit :=
  let ea := ensure_active_instance drv s
  match ea.2 with
  | .error e => (ea.1, .error e)
  | .ok _ => (ea.1 ++ [.clearExecutableBlacklist], .ok ())

/-- `UserspaceVFS.force_load_lib`: canonicalize the library path relative to
the call-time cwd, then `_ensure_active_instance` and the dll call; no
initialized check. -/
def force_load_lib (drv : Driver) (callCwd : String) (s : UserspaceVFS)
    (process_name library_path : String) : List DriverCall × Except Err Unit :=
  let libpath := abspath callCwd library_path
  let ea := ensure_active_instance drv s
  match ea.2 with
  | .error e => (ea.1, .error e)
  | .ok _ => (ea.1 ++ [.forceLoadLibrary process_name libpath], .ok ())

/-- `UserspaceVFS.clear_force_loads`: no initialized check. -/
def clear_force_loads (drv : Driver) (s : UserspaceVFS) :
    List DriverCall × Except Err Unit :=
  let ea := ensure_active_instance drv s
  match ea.2 with
  | .error e => (ea.1, .error e)
  | .ok _ => (ea.1 ++ [.clearLibraryForceLoads], .ok ())

/-- `UserspaceVFS.run_process`.  The `working_directory` parameter's default
is `os.getcwd()` evaluated once, when the module is loaded (Python evaluates
default argument expressions at function definition time) — that import-time
cwd is `importCwd`.  The explicit `os.path.abspath` at the top of the body
runs at call time, against the call-time cwd `callCwd`.  No initialized
check. -/
def run_process (drv : Driver) (importCwd callCwd : String) (s : UserspaceVFS)
    (command_line : String) (working_directory : Option String) :
    List DriverCall × Except Err Unit :=
  let wd := abspath callCwd (working_directory.getD importCwd)
  let ea := ensure_active_instance drv s
  match ea.2 with
  | .error e => (ea.1, .error e)
  | .ok _ =>
    if drv.processOk command_line wd then
      (ea.1 ++ [.createProcessHooked command_line wd], .ok ())
    else
      (ea.1 ++ [.createProcessHooked command_line wd],
       .error (.usvfsException "Failed to start process - try enabling debugging"))

/-- `UserspaceVFS.get_active_processes`: no initialized check; returns the
driver's process list. -/
def get_active_processes (drv : Driver) (s : UserspaceVFS) :
    List DriverCall × Except Err (List Int) :=
  let ea := ensure_active_instance drv s
  match ea.2 with
  | .error e => (ea.1, .error e)
  | .ok _ => (ea.1 ++ [.getVFSProcessList], .ok drv.processList)

/-! ### Driver-side rule state

To speak about which rules "remain applied" after a partial `set_mapping`,
the driver's rule store is replayed from the call trace: a clear call empties
it, and a link call the oracle accepted appends the rule. -/

/-- Replay a call trace against the driver oracle, tracking the list of link
calls currently in effect on the driver side. -/
def replayApplied (drv : Driver) : List DriverCall → List DriverCall → List DriverCall
  | applied, [] => applied
  | _, .clearVirtualMappings :: rest => replayApplied drv [] rest
  | applied, .virtualLinkDirectoryStatic r v f :: rest =>
    replayApplied drv
      (if drv.linkDirOk r v f then applied ++ [.virtualLinkDirectoryStatic r v f] else applied)
      rest
  | applied, .virtualLinkFile r v f :: rest =>
    replayApplied drv
      (if drv.linkFileOk r v f then applied ++ [.virtualLinkFile r v f] else applied)
      rest
  | applied, _ :: rest => replayApplied drv applied rest

/-- Decidable equality for `Except` results, so concrete runs can be checked
by `decide`. -/
def exceptDecEq {ε α : Type} [DecidableEq ε] [DecidableEq α] :
    DecidableEq (Except ε α)
  | .error e, .error e' =>
    if h : e = e' then .isTrue (h ▸ rfl)
    else .isFalse (fun c => h (Except.error.inj c))
  | .error _, .ok _ => .isFalse (fun c => Except.noConfusion c)
  | .ok _, .error _ => .isFalse (fun c => Except.noConfusion c)
  | .ok a, .ok a' =>
    if h : a = a' then .isTrue (h ▸ rfl)
    else .isFalse (fun c => h (Except.ok.inj c))

instance {ε α : Type} [DecidableEq ε] [DecidableEq α] : DecidableEq (Except ε α) :=
  exceptDecEq

/-- A sample link rule used by the witness theorems. -/
def sampleLink : VirtualLink :=
  { real_path := "/r", virtual_path := "/v", is_directory := false, link_flags := 0 }

/-- `sampleLink` with the fail-if-exists bit set. -/
def sampleLink1 : VirtualLink :=
  { real_path := "/r", virtual_path := "/v", is_directory := false, link_flags := 1 }

/-- A driver oracle that accepts everything; used by witness theorems. -/
def drvAllOk : Driver :=
  { linkDirOk := fun _ _ _ => true
    linkFileOk := fun _ _ _ => true
    connectOk := true
    createOk := true
    currentName := "pyusvfs_instance"
    processOk := fun _ _ => true
    processList := [] }

/-- A sample initialized session whose name matches `drvAllOk.currentName`. -/
def sampleSession : UserspaceVFS :=
  { params := { instanceName := "pyusvfs_instance"
                debugMode := false
                logLevel := 0
                crashDumpsType := 0
                crashDumpPath := "" }
    initializedFlag := true }

/-- A sample constructed-but-never-initialized session. -/
def sampleUninit : UserspaceVFS := { sampleSession with initializedFlag := false }

/-- Sample directory rule used by the trace witnesses. -/
def dirA : VirtualLink :=
  { real_path := "/ra", virtual_path := "/va", is_directory := true, link_flags := 8 }

/-- Sample file rule used by the trace witnesses. -/
def fileB : VirtualLink :=
  { real_path := "/rb", virtual_path := "/vb", is_directory := false, link_flags := 0 }

/-- Second sample directory rule used by the trace witnesses. -/
def dirC : VirtualLink :=
  { real_path := "/rc", virtual_path := "/vc", is_directory := true, link_flags := 8 }

/-- A driver that rejects exactly the directory link whose real path is
`"/rc"`, accepting everything else. -/
def drvRejectDirC : Driver :=
  { drvAllOk with linkDirOk := fun rp _ _ => !(rp == "/rc") }

/-- A 65-character instance name, one character over the limit. -/
def longName : String := String.mk (List.replicate 65 'a')

/-- `n` repetitions of `close()` followed by `initialize()` on a session,
propagating the first failure. -/
def iterateCloseInit (drv : Driver) : Nat → UserspaceVFS → Except Err UserspaceVFS
  | 0, s => .ok s
  | n + 1, s =>
    match (close s).2 with
    | .error e => .error e
    | .ok s' =>
      match (initializeVFS drv s').2 with
      | .error e => .error e
      | .ok s'' => iterateCloseInit drv n s''

end Usvfs

namespace Usvfs

/-! ### Helper lemmas about the flag bit operations -/

theorem flagConst_eq_two_pow (fn : FlagName) : flagConst fn = 2 ^ flagBitIndex fn := by
  cases fn <;> rfl

theorem getFlag_eq_testBit (fn : FlagName) (l : VirtualLink) :
    getFlag fn l = l.link_flags.testBit (flagBitIndex fn) := by
  unfold getFlag getFlagBit
  rw [flagConst_eq_two_pow fn, Nat.and_two_pow]
  cases hb : l.link_flags.testBit (flagBitIndex fn) <;>
    simp [hb, (Nat.two_pow_pos (flagBitIndex fn)).ne']

theorem getFlag_lor_self (fn : FlagName) (l : VirtualLink) :
    getFlag fn { l with link_flags := l.link_flags ||| flagConst fn } = true := by
  rw [getFlag_eq_testBit]
  simp [flagConst_eq_two_pow fn, Nat.testBit_or, Nat.testBit_two_pow_self]

theorem getFlag_ldiff_self (fn : FlagName) (l : VirtualLink) :
    getFlag fn { l with link_flags := Nat.ldiff l.link_flags (flagConst fn) } = false := by
  rw [getFlag_eq_testBit]
  simp [flagConst_eq_two_pow fn, Nat.testBit_ldiff, Nat.testBit_two_pow_self]

/-! ### C4 -/

/-- C4: for every constructed link rule and every assigned value, the
`is_directory` setter fails with `AttributeError` (the `InvariantViolation`
of the spec): the guard `isinstance(self, type(_VirtualLink))` is
`isinstance(self, type)`, false for every instance, so the setter
unconditionally raises and the stored `is_directory` value is untouched (an
error outcome carries no updated object). -/
theorem set_is_directory_always_fails (l : VirtualLink) (pv : PyVal) :
    set_is_directory l pv =
      .error (.attributeError "Property is_directory cannot be set") := rfl

/-! ### C6 -/

/-- C6: for every link rule, named flag and boolean `v`: setting the flag to
`v` succeeds and reading it back returns `v`; if the flag already equals `v`
the setter returns the object with `link_flags` bit-for-bit unchanged; and a
non-boolean argument is rejected with `TypeError`, never coerced. -/
theorem flag_set_get_roundtrip (fn : FlagName) (l : VirtualLink) (v : Bool) :
    (∃ l', setFlag fn l (.pybool v) = .ok l' ∧ getFlag fn l' = v) ∧
    (getFlag fn l = v → setFlag fn l (.pybool v) = .ok l) ∧
    (∀ pv : PyVal, (∀ b : Bool, pv ≠ .pybool b) →
      setFlag fn l pv = .error (.typeError "Property must be a bool")) := by
  refine ⟨?_, ?_, ?_⟩
  · by_cases hcur : getFlag fn l = v
    · refine ⟨l, ?_, hcur⟩
      simp only [setFlag, setFlagBit]
      rw [if_pos (by simpa [getFlag] using hcur)]
    · cases v with
      | true =>
        refine ⟨{ l with link_flags := l.link_flags ||| flagConst fn }, ?_,
          getFlag_lor_self fn l⟩
        simp only [setFlag, setFlagBit]
        rw [if_neg (by simpa [getFlag] using hcur)]
        simp
      | false =>
        refine ⟨{ l with link_flags := Nat.ldiff l.link_flags (flagConst fn) }, ?_,
          getFlag_ldiff_self fn l⟩
        simp only [setFlag, setFlagBit]
        rw [if_neg (by simpa [getFlag] using hcur)]
        simp
  · intro hcur
    simp only [setFlag, setFlagBit]
    rw [if_pos (by simpa [getFlag] using hcur)]
  · intro pv hpv
    cases pv with
    | pybool b => exact absurd rfl (hpv b)
    | pyint n => rfl
    | pystr s => rfl
    | pynone => rfl

/-- Witness for C6: on `sampleLink` (all flags clear) setting
`link_fail_if_exists` to `false` is a no-op returning the object unchanged. -/
theorem flag_set_get_roundtrip_witness :
    setFlag FlagName.failIfExists sampleLink (PyVal.pybool false) = .ok sampleLink :=
  (flag_set_get_roundtrip FlagName.failIfExists sampleLink false).2.1 (by decide)

/-! ### C10 -/

/-- C10: every flag setter is frame-preserving — whenever it returns an
updated link rule, `real_path`, `virtual_path` and `is_directory` are
unchanged and every bit of `link_flags` other than the flag's own bit is
unchanged. -/
theorem flag_setter_frame (fn : FlagName) (l : VirtualLink) (pv : PyVal)
    (l' : VirtualLink) (h : setFlag fn l pv = .ok l') :
    l'.real_path = l.real_path ∧ l'.virtual_path = l.virtual_path ∧
    l'.is_directory = l.is_directory ∧
    ∀ j, j ≠ flagBitIndex fn →
      l'.link_flags.testBit j = l.link_flags.testBit j := by
  cases pv with
  | pybool v =>
    simp only [setFlag, setFlagBit] at h
    by_cases hcur : getFlagBit (flagConst fn) l = v
    · rw [if_pos hcur] at h
      cases h
      exact ⟨rfl, rfl, rfl, fun j _ => rfl⟩
    · rw [if_neg hcur] at h
      cases v with
      | true =>
        rw [if_pos rfl] at h
        cases h
        refine ⟨rfl, rfl, rfl, fun j hj => ?_⟩
        rw [flagConst_eq_two_pow fn, Nat.testBit_or,
          Nat.testBit_two_pow_of_ne (fun c => hj c.symm), Bool.or_false]
      | false =>
        simp only [Bool.false_eq_true, if_false] at h
        cases h
        refine ⟨rfl, rfl, rfl, fun j hj => ?_⟩
        rw [flagConst_eq_two_pow fn, Nat.testBit_ldiff,
          Nat.testBit_two_pow_of_ne (fun c => hj c.symm), Bool.not_false, Bool.and_true]
  | pyint n => exact absurd h (by simp [setFlag, setFlagBit])
  | pystr s => exact absurd h (by simp [setFlag, setFlagBit])
  | pynone => exact absurd h (by simp [setFlag, setFlagBit])

/-- Witness for C10: setting `link_fail_if_exists` on `sampleLink` changes
only bit 0 of the flag word and no other field. -/
theorem flag_setter_frame_witness :
    sampleLink1.real_path = sampleLink.real_path ∧
    sampleLink1.virtual_path = sampleLink.virtual_path ∧
    sampleLink1.is_directory = sampleLink.is_directory ∧
    ∀ j, j ≠ flagBitIndex FlagName.failIfExists →
      sampleLink1.link_flags.testBit j = sampleLink.link_flags.testBit j :=
  flag_setter_frame FlagName.failIfExists sampleLink (PyVal.pybool true) sampleLink1
    (by decide)

/-! ### C2 -/

/-- C2: constructing a session reserves its name; a second construction with
the same name fails with the name-conflict error; `close` succeeds on an
initialized session without ever touching the registry (its type does not
even mention the registry), so a third construction with the name still
conflicts; and the registry only ever grows (every construction returns the
input registry extended by at most one name). -/
theorem name_conflict_no_release (R : List String) (name : String)
    (hfree : R.contains name = false) (hlen : ¬ name.length > 64) :
    (∃ s : UserspaceVFS, (usvfsInit R name).2 = .ok s ∧ s.instance_name = name) ∧
    (usvfsInit R name).1 = R ++ [name] ∧
    (usvfsInit (R ++ [name]) name).2 =
      .error (.usvfsException
        "A usvfs instance with that instance name already exists!") ∧
    (∀ s : UserspaceVFS, s.initializedFlag = true →
      (close s).2 = .ok { s with initializedFlag := false }) ∧
    (∀ (R' : List String) (nm : String),
      ∃ t, (usvfsInit R' nm).1 = R' ++ t) := by
  have hfree' : name ∉ R := by simpa using hfree
  have hmem : name ∈ R ++ [name] := by simp
  refine ⟨?_, ?_, ?_, ?_, ?_⟩
  · refine ⟨UserspaceVFS.mk (USVFSParameters.mk name false 0 0 "") false, ?_, rfl⟩
    simp [usvfsInit, hfree', hlen]
  · simp [usvfsInit, hfree', hlen]
  · simp [usvfsInit, hmem]
  · intro s hs
    simp [close, hs]
  · intro R' nm
    by_cases hc : nm ∈ R'
    · exact ⟨[], by simp [usvfsInit, hc]⟩
    · refine ⟨[nm], ?_⟩
      by_cases hl : nm.length > 64 <;>
        simp [usvfsInit, hc, hl]

/-- Witness for C2, on an empty registry with the default instance name and
`sampleSession` as the initialized session being closed. -/
theorem name_conflict_no_release_witness :
    (∃ s : UserspaceVFS,
      (usvfsInit [] "pyusvfs_instance").2 = .ok s ∧
      s.instance_name = "pyusvfs_instance") ∧
    (usvfsInit [] "pyusvfs_instance").1 = [] ++ ["pyusvfs_instance"] ∧
    (usvfsInit ([] ++ ["pyusvfs_instance"]) "pyusvfs_instance").2 =
      .error (.usvfsException
        "A usvfs instance with that instance name already exists!") ∧
    (∀ s : UserspaceVFS, s.initializedFlag = true →
      (close s).2 = .ok { s with initializedFlag := false }) ∧
    (∀ (R' : List String) (nm : String),
      ∃ t, (usvfsInit R' nm).1 = R' ++ t) :=
  name_conflict_no_release [] "pyusvfs_instance" (by decide) (by decide)

/-! ### C5 -/

/-- C5 counterexample: constructing with a 65-character name does fail with
the invalid-name error, but the failed construction leaves the name in the
registry (the registry is no longer empty), and repeating the construction
fails with the name-conflict error — which is a different error than the
invalid-name one the claim predicts. -/
theorem overlong_name_counterexample :
    (usvfsInit [] longName).2 =
      .error (.usvfsException "Instance names may not exceed 64 characters") ∧
    (usvfsInit [] longName).1 ≠ [] ∧
    (usvfsInit ((usvfsInit [] longName).1) longName).2 =
      .error (.usvfsException
        "A usvfs instance with that instance name already exists!") ∧
    Err.usvfsException "A usvfs instance with that instance name already exists!" ≠
      Err.usvfsException "Instance names may not exceed 64 characters" := by
  refine ⟨by decide, by decide, by decide, by decide⟩

/-- C5 amended: constructing with an over-long free name fails with
`InvalidName`, but the conflict check and the reservation run first, so the
name is reserved by the failed construction and a repeat construction with
the same name fails with `NameConflict` instead. -/
theorem overlong_name_reserved (R : List String) (name : String)
    (hfree : R.contains name = false) (hlen : name.length > 64) :
    (usvfsInit R name).2 =
      .error (.usvfsException "Instance names may not exceed 64 characters") ∧
    (usvfsInit R name).1 = R ++ [name] ∧
    (usvfsInit (R ++ [name]) name).2 =
      .error (.usvfsException
        "A usvfs instance with that instance name already exists!") := by
  have hfree' : name ∉ R := by simpa using hfree
  have hmem : name ∈ R ++ [name] := by simp
  refine ⟨?_, ?_, ?_⟩
  · simp [usvfsInit, hfree', hlen]
  · simp [usvfsInit, hfree', hlen]
  · simp [usvfsInit, hmem]

/-- Witness for C5 (amended), at the concrete 65-character name. -/
theorem overlong_name_reserved_witness :
    (usvfsInit [] longName).2 =
      .error (.usvfsException "Instance names may not exceed 64 characters") ∧
    (usvfsInit [] longName).1 = [] ++ [longName] ∧
    (usvfsInit ([] ++ [longName]) longName).2 =
      .error (.usvfsException
        "A usvfs instance with that instance name already exists!") :=
  overlong_name_reserved [] longName (by decide) (by decide)

/-! ### C9 -/

/-- C9: the closed state is not terminal — `close` on an initialized session
resets the flag, a subsequent `initialize` succeeds (no already-initialized
error) and performs driver-side creation again (`InitLogging` then
`CreateVFS`), restoring exactly the original state; hence the
close-then-initialize cycle succeeds any number of times. -/
theorem close_reinitialize_cycle (drv : Driver) (s : UserspaceVFS)
    (hInit : s.initializedFlag = true) (hCreate : drv.createOk = true) :
    (close s).2 = .ok { s with initializedFlag := false } ∧
    (UserspaceVFS.mk s.params false).initializedFlag = false ∧
    (initializeVFS drv { s with initializedFlag := false }).2 = .ok s ∧
    (initializeVFS drv { s with initializedFlag := false }).1 =
      [DriverCall.initLogging s.params.debugMode, DriverCall.createVFS] ∧
    ∀ n, iterateCloseInit drv n s = .ok s := by
  obtain ⟨p, f⟩ := s
  cases hInit
  have hclose : (close ⟨p, true⟩).2 = .ok ⟨p, false⟩ := by simp [close]
  have hinit : (initializeVFS drv ⟨p, false⟩).2 = .ok ⟨p, true⟩ := by
    simp [initializeVFS, hCreate]
  refine ⟨hclose, rfl, hinit, by simp [initializeVFS, hCreate], ?_⟩
  intro n
  induction n with
  | zero => rfl
  | succ n ih =>
    show iterateCloseInit drv (n + 1) ⟨p, true⟩ = .ok ⟨p, true⟩
    unfold iterateCloseInit
    rw [hclose]
    simp only
    rw [hinit]
    exact ih

/-- Witness for C9, on `sampleSession` with the all-accepting driver. -/
theorem close_reinitialize_cycle_witness :
    (close sampleSession).2 = .ok { sampleSession with initializedFlag := false } ∧
    (UserspaceVFS.mk sampleSession.params false).initializedFlag = false ∧
    (initializeVFS drvAllOk { sampleSession with initializedFlag := false }).2 =
      .ok sampleSession ∧
    (initializeVFS drvAllOk { sampleSession with initializedFlag := false }).1 =
      [DriverCall.initLogging sampleSession.params.debugMode, DriverCall.createVFS] ∧
    ∀ n, iterateCloseInit drvAllOk n sampleSession = .ok sampleSession :=
  close_reinitialize_cycle drvAllOk sampleSession rfl rfl

/-! ### C7 -/

/-- C7 counterexample: the module was imported with cwd `"/a"` and
`run_process` is called with cwd `"/b"`, omitting `working_directory`.  The
claim predicts the forwarded working directory is the call-time cwd `"/b"`
(whose canonical form is `"/b"` itself), but the code forwards `"/a"`: the
`os.getcwd()` default was evaluated once, at function definition time. -/
theorem run_process_default_wd_counterexample :
    (run_process drvAllOk "/a" "/b" sampleUninit "app.exe" none).1 =
      [DriverCall.connectVFS, DriverCall.createProcessHooked "app.exe" "/a"] ∧
    abspath "/b" "/b" = "/b" ∧
    DriverCall.createProcessHooked "app.exe" "/a" ≠
      DriverCall.createProcessHooked "app.exe" "/b" := by
  refine ⟨by decide, by decide, by decide⟩

/-- C7 amended: when `working_directory` is omitted, the directory forwarded
to the driver's spawn operation is the process cwd captured once at module
definition time (the evaluated default argument), canonicalized at call
time — not the cwd at the time of the call. -/
theorem run_process_default_wd (drv : Driver) (importCwd callCwd : String)
    (s : UserspaceVFS) (cmd : String)
    (hEnsure : (ensure_active_instance drv s).2 = .ok ()) :
    (run_process drv importCwd callCwd s cmd none).1 =
      (ensure_active_instance drv s).1 ++
        [DriverCall.createProcessHooked cmd (abspath callCwd importCwd)] := by
  simp only [run_process, Option.getD_none]
  rw [hEnsure]
  cases hp : drv.processOk cmd (abspath callCwd importCwd) <;> simp [hp]

/-- Witness for C7 (amended), at concrete cwds on a non-initialized session
(whose reconnect succeeds under `drvAllOk`). -/
theorem run_process_default_wd_witness :
    (run_process drvAllOk "/a" "/b" sampleUninit "app.exe" none).1 =
      (ensure_active_instance drvAllOk sampleUninit).1 ++
        [DriverCall.createProcessHooked "app.exe" (abspath "/b" "/a")] :=
  run_process_default_wd drvAllOk "/a" "/b" sampleUninit "app.exe" (by decide)

/-! ### C8 -/

/-- C8: on a never-initialized session, the six operations that skip the
initialized check behave identically: no not-initialized error, no
`GetCurrentVFSName` query (`is_active_instance` returns false without a
driver call), exactly one `ConnectVFS` reconnect attempt, and the
connection-failed error exactly when that reconnect fails. -/
theorem never_initialized_ops (drv : Driver) (s : UserspaceVFS)
    (name pn lp cwd icwd ccwd cmd : String) (owd : Option String)
    (hNot : s.initializedFlag = false) :
    (blacklist_executable drv s name =
      if drv.connectOk then ([.connectVFS, .blacklistExecutable name], .ok ())
      else ([.connectVFS], .error (.usvfsException "Could not connect to VFS"))) ∧
    (clear_blacklist drv s =
      if drv.connectOk then ([.connectVFS, .clearExecutableBlacklist], .ok ())
      else ([.connectVFS], .error (.usvfsException "Could not connect to VFS"))) ∧
    (force_load_lib drv cwd s pn lp =
      if drv.connectOk then
        ([.connectVFS, .forceLoadLibrary pn (abspath cwd lp)], .ok ())
      else ([.connectVFS], .error (.usvfsException "Could not connect to VFS"))) ∧
    (clear_force_loads drv s =
      if drv.connectOk then ([.connectVFS, .clearLibraryForceLoads], .ok ())
      else ([.connectVFS], .error (.usvfsException "Could not connect to VFS"))) ∧
    (run_process drv icwd ccwd s cmd owd =
      if drv.connectOk then
        ([.connectVFS, .createProcessHooked cmd (abspath ccwd (owd.getD icwd))],
         if drv.processOk cmd (abspath ccwd (owd.getD icwd)) then .ok ()
         else .error
           (.usvfsException "Failed to start process - try enabling debugging"))
      else ([.connectVFS], .error (.usvfsException "Could not connect to VFS"))) ∧
    (get_active_processes drv s =
      if drv.connectOk then ([.connectVFS, .getVFSProcessList], .ok drv.processList)
      else ([.connectVFS], .error (.usvfsException "Could not connect to VFS"))) := by
  have hEns : ensure_active_instance drv s =
      ([.connectVFS],
       if drv.connectOk then .ok ()
       else .error (.usvfsException "Could not connect to VFS")) := by
    cases hc : drv.connectOk <;>
      simp [ensure_active_instance, is_active_instance, hNot, hc]
  refine ⟨?_, ?_, ?_, ?_, ?_, ?_⟩ <;>
    cases hc : drv.connectOk <;>
      simp [blacklist_executable, clear_blacklist, force_load_lib, clear_force_loads,
        run_process, get_active_processes, hEns, hc] <;>
        (try cases hp : drv.processOk cmd (abspath ccwd (owd.getD icwd)) <;> simp [hp])

/-- Witness for C8, at the never-initialized `sampleUninit` session under the
all-accepting driver (every operation succeeds after one reconnect). -/
theorem never_initialized_ops_witness :
    (blacklist_executable drvAllOk sampleUninit "x.exe" =
      if drvAllOk.connectOk then
        ([.connectVFS, .blacklistExecutable "x.exe"], .ok ())
      else ([.connectVFS], .error (.usvfsException "Could not connect to VFS"))) ∧
    (clear_blacklist drvAllOk sampleUninit =
      if drvAllOk.connectOk then ([.connectVFS, .clearExecutableBlacklist], .ok ())
      else ([.connectVFS], .error (.usvfsException "Could not connect to VFS"))) ∧
    (force_load_lib drvAllOk "/c" sampleUninit "p.exe" "lib.dll" =
      if drvAllOk.connectOk then
        ([.connectVFS, .forceLoadLibrary "p.exe" (abspath "/c" "lib.dll")], .ok ())
      else ([.connectVFS], .error (.usvfsException "Could not connect to VFS"))) ∧
    (clear_force_loads drvAllOk sampleUninit =
      if drvAllOk.connectOk then ([.connectVFS, .clearLibraryForceLoads], .ok ())
      else ([.connectVFS], .error (.usvfsException "Could not connect to VFS"))) ∧
    (run_process drvAllOk "/a" "/b" sampleUninit "app.exe" none =
      if drvAllOk.connectOk then
        ([.connectVFS, .createProcessHooked "app.exe" (abspath "/b" ((none : Option String).getD "/a"))],
         if drvAllOk.processOk "app.exe" (abspath "/b" ((none : Option String).getD "/a")) then .ok ()
         else .error
           (.usvfsException "Failed to start process - try enabling debugging"))
      else ([.connectVFS], .error (.usvfsException "Could not connect to VFS"))) ∧
    (get_active_processes drvAllOk sampleUninit =
      if drvAllOk.connectOk then
        ([.connectVFS, .getVFSProcessList], .ok drvAllOk.processList)
      else ([.connectVFS], .error (.usvfsException "Could not connect to VFS"))) :=
  never_initialized_ops drvAllOk sampleUninit "x.exe" "p.exe" "lib.dll" "/c" "/a" "/b"
    "app.exe" none rfl

/-! ### Helper lemmas for the `set_mapping` trace theorems -/

theorem foldl_link_dirs (rules : List VirtualLink) (m : Mapping) :
    (rules.foldl Mapping.link m).dirs =
      m.dirs ++ (rules.filter fun r => r.is_directory) := by
  induction rules generalizing m with
  | nil => simp
  | cons r rs ih =>
    simp only [List.foldl_cons, List.filter_cons]
    cases hr : r.is_directory <;>
      simp [ih, Mapping.link, hr]

theorem foldl_link_files (rules : List VirtualLink) (m : Mapping) :
    (rules.foldl Mapping.link m).files =
      m.files ++ (rules.filter fun r => !r.is_directory) := by
  induction rules generalizing m with
  | nil => simp
  | cons r rs ih =>
    simp only [List.foldl_cons, List.filter_cons]
    cases hr : r.is_directory <;>
      simp [ih, Mapping.link, hr]

theorem linkDirectories_ok (drv : Driver) (ds : List VirtualLink)
    (h : ∀ d ∈ ds, drv.linkDirOk d.real_path d.virtual_path d.link_flags = true) :
    linkDirectories drv ds = (ds.map dirCall, .ok ()) := by
  induction ds with
  | nil => rfl
  | cons d ds ih =>
    have hd := h d (by simp)
    have hrest := ih fun x hx => h x (by simp [hx])
    simp [linkDirectories, hd, hrest]

theorem linkFiles_ok (drv : Driver) (fs : List VirtualLink)
    (h : ∀ f ∈ fs, drv.linkFileOk f.real_path f.virtual_path f.link_flags = true) :
    linkFiles drv fs = (fs.map fileCall, .ok ()) := by
  induction fs with
  | nil => rfl
  | cons f fs ih =>
    have hf := h f (by simp)
    have hrest := ih fun x hx => h x (by simp [hx])
    simp [linkFiles, hf, hrest]

theorem linkDirectories_fail (drv : Driver) (ds1 ds2 : List VirtualLink)
    (d : VirtualLink)
    (hok : ∀ x ∈ ds1, drv.linkDirOk x.real_path x.virtual_path x.link_flags = true)
    (hfail : drv.linkDirOk d.real_path d.virtual_path d.link_flags = false) :
    linkDirectories drv (ds1 ++ d :: ds2) =
      (ds1.map dirCall ++ [dirCall d],
       .error (.usvfsException
         (linkFailedMessage "directory" d.real_path d.virtual_path d.link_flags))) := by
  induction ds1 with
  | nil => simp [linkDirectories, hfail]
  | cons x xs ih =>
    have hx := hok x (by simp)
    have hrest := ih fun y hy => hok y (by simp [hy])
    simp [linkDirectories, hx, hrest]

theorem linkFiles_fail (drv : Driver) (fs1 fs2 : List VirtualLink)
    (f : VirtualLink)
    (hok : ∀ x ∈ fs1, drv.linkFileOk x.real_path x.virtual_path x.link_flags = true)
    (hfail : drv.linkFileOk f.real_path f.virtual_path f.link_flags = false) :
    linkFiles drv (fs1 ++ f :: fs2) =
      (fs1.map fileCall ++ [fileCall f],
       .error (.usvfsException
         (linkFailedMessage "file" f.real_path f.virtual_path f.link_flags))) := by
  induction fs1 with
  | nil => simp [linkFiles, hfail]
  | cons x xs ih =>
    have hx := hok x (by simp)
    have hrest := ih fun y hy => hok y (by simp [hy])
    simp [linkFiles, hx, hrest]

theorem ensure_trace_cases (drv : Driver) (s : UserspaceVFS) :
    (ensure_active_instance drv s).1 = [DriverCall.connectVFS] ∨
    (ensure_active_instance drv s).1 = [DriverCall.getCurrentVFSName] ∨
    (ensure_active_instance drv s).1 =
      [DriverCall.getCurrentVFSName, DriverCall.connectVFS] := by
  simp only [ensure_active_instance, is_active_instance]
  by_cases hi : s.initializedFlag
  · by_cases ha : startswith drv.currentName s.instance_name <;>
      by_cases hc : drv.connectOk <;> simp [hi, ha, hc]
  · by_cases hc : drv.connectOk <;> simp [hi, hc]

theorem replayApplied_ensure (drv : Driver) (s : UserspaceVFS)
    (acc rest : List DriverCall) :
    replayApplied drv acc ((ensure_active_instance drv s).1 ++ rest) =
      replayApplied drv acc rest := by
  rcases ensure_trace_cases drv s with h | h | h <;> rw [h] <;>
    simp [replayApplied]

theorem replayApplied_dirCalls (drv : Driver) (ds : List VirtualLink)
    (acc rest : List DriverCall)
    (h : ∀ d ∈ ds, drv.linkDirOk d.real_path d.virtual_path d.link_flags = true) :
    replayApplied drv acc (ds.map dirCall ++ rest) =
      replayApplied drv (acc ++ ds.map dirCall) rest := by
  induction ds generalizing acc with
  | nil => simp
  | cons d ds ih =>
    have hd := h d (by simp)
    have step : replayApplied drv acc (dirCall d :: (ds.map dirCall ++ rest)) =
        replayApplied drv (acc ++ [dirCall d]) (ds.map dirCall ++ rest) := by
      simp [replayApplied, dirCall, hd]
    simp only [List.map_cons, List.cons_append]
    rw [step, ih _ fun x hx => h x (by simp [hx])]
    simp

theorem replayApplied_fileCalls (drv : Driver) (fs : List VirtualLink)
    (acc rest : List DriverCall)
    (h : ∀ f ∈ fs, drv.linkFileOk f.real_path f.virtual_path f.link_flags = true) :
    replayApplied drv acc (fs.map fileCall ++ rest) =
      replayApplied drv (acc ++ fs.map fileCall) rest := by
  induction fs generalizing acc with
  | nil => simp
  | cons f fs ih =>
    have hf := h f (by simp)
    have step : replayApplied drv acc (fileCall f :: (fs.map fileCall ++ rest)) =
        replayApplied drv (acc ++ [fileCall f]) (fs.map fileCall ++ rest) := by
      simp [replayApplied, fileCall, hf]
    simp only [List.map_cons, List.cons_append]
    rw [step, ih _ fun x hx => h x (by simp [hx])]
    simp

/-! ### C1 -/

/-- C1: on an initialized session whose `_ensure_active_instance` succeeds,
applying a mapping built by linking any interleaving of rules issues, after
the connection-management calls, exactly one `ClearVirtualMappings`, then one
`VirtualLinkDirectoryStatic` call per directory rule in insertion order, then
one `VirtualLinkFile` call per file rule in insertion order — so no file-link
call precedes any directory-link call, regardless of the order in which
directory and file rules were linked into the `Mapping`. -/
theorem set_mapping_call_order (drv : Driver) (s : UserspaceVFS)
    (rules : List VirtualLink)
    (hInit : s.initializedFlag = true)
    (hActive : (ensure_active_instance drv s).2 = .ok ())
    (hDirs : ∀ d ∈ rules, d.is_directory = true →
      drv.linkDirOk d.real_path d.virtual_path d.link_flags = true)
    (hFiles : ∀ f ∈ rules, f.is_directory = false →
      drv.linkFileOk f.real_path f.virtual_path f.link_flags = true) :
    set_mapping drv s (rules.foldl Mapping.link Mapping.new) =
      ((ensure_active_instance drv s).1 ++ [DriverCall.clearVirtualMappings] ++
        ((rules.filter fun r => r.is_directory).map dirCall) ++
        ((rules.filter fun r => !r.is_directory).map fileCall),
       .ok ()) := by
  have hd : (rules.foldl Mapping.link Mapping.new).directories =
      rules.filter fun r => r.is_directory := by
    simp [Mapping.directories, foldl_link_dirs, Mapping.new]
  have hf : (rules.foldl Mapping.link Mapping.new).filesSeq =
      rules.filter fun r => !r.is_directory := by
    simp [Mapping.filesSeq, foldl_link_files, Mapping.new]
  have hld : linkDirectories drv (rules.foldl Mapping.link Mapping.new).directories =
      ((rules.filter fun r => r.is_directory).map dirCall, .ok ()) := by
    rw [hd]
    refine linkDirectories_ok drv _ fun d hdm => ?_
    have := List.mem_filter.mp hdm
    exact hDirs d this.1 (by simpa using this.2)
  have hlf : linkFiles drv (rules.foldl Mapping.link Mapping.new).filesSeq =
      ((rules.filter fun r => !r.is_directory).map fileCall, .ok ()) := by
    rw [hf]
    refine linkFiles_ok drv _ fun f hfm => ?_
    have := List.mem_filter.mp hfm
    exact hFiles f this.1 (by simpa using this.2)
  simp only [set_mapping, hInit, Bool.not_true, not_true_eq_false, if_false]
  rw [hActive]
  simp only [hld, hlf]

/-- Witness for C1: the mapping is built by linking a file rule first, then
two directory rules; the resulting trace still clears once and links both
directories before the file. -/
theorem set_mapping_call_order_witness :
    set_mapping drvAllOk sampleSession
        ([fileB, dirA, dirC].foldl Mapping.link Mapping.new) =
      ((ensure_active_instance drvAllOk sampleSession).1 ++
        [DriverCall.clearVirtualMappings] ++
        (([fileB, dirA, dirC].filter fun r => r.is_directory).map dirCall) ++
        (([fileB, dirA, dirC].filter fun r => !r.is_directory).map fileCall),
       .ok ()) :=
  set_mapping_call_order drvAllOk sampleSession [fileB, dirA, dirC] rfl (by decide)
    (fun _ _ _ => rfl) (fun _ _ _ => rfl)

/-! ### C3 -/

/-- C3: when the driver rejects one link call during `set_mapping` on an
initialized, reachable session, the operation aborts with the diagnostic
carrying exactly the failing rule's real path, virtual path and flag value;
the trace stops at the failing call (nothing after it is attempted), and
replaying the trace against the driver shows every rule linked before the
failure still applied, with no rollback.  The first conjunct is the failing
directory-rule case, the second the failing file-rule case (where all
directory rules had succeeded). -/
theorem set_mapping_link_failed (drv : Driver) (s : UserspaceVFS)
    (hInit : s.initializedFlag = true)
    (hActive : (ensure_active_instance drv s).2 = .ok ()) :
    (∀ (ds1 ds2 fs : List VirtualLink) (d : VirtualLink),
      (∀ x ∈ ds1, drv.linkDirOk x.real_path x.virtual_path x.link_flags = true) →
      drv.linkDirOk d.real_path d.virtual_path d.link_flags = false →
      set_mapping drv s (Mapping.mk (ds1 ++ d :: ds2) fs) =
        ((ensure_active_instance drv s).1 ++ [DriverCall.clearVirtualMappings] ++
          (ds1.map dirCall ++ [dirCall d]),
         .error (.usvfsException
           (linkFailedMessage "directory" d.real_path d.virtual_path d.link_flags))) ∧
      replayApplied drv [] (set_mapping drv s (Mapping.mk (ds1 ++ d :: ds2) fs)).1 =
        ds1.map dirCall) ∧
    (∀ (ds fs1 fs2 : List VirtualLink) (f : VirtualLink),
      (∀ x ∈ ds, drv.linkDirOk x.real_path x.virtual_path x.link_flags = true) →
      (∀ x ∈ fs1, drv.linkFileOk x.real_path x.virtual_path x.link_flags = true) →
      drv.linkFileOk f.real_path f.virtual_path f.link_flags = false →
      set_mapping drv s (Mapping.mk ds (fs1 ++ f :: fs2)) =
        ((ensure_active_instance drv s).1 ++ [DriverCall.clearVirtualMappings] ++
          ds.map dirCall ++ (fs1.map fileCall ++ [fileCall f]),
         .error (.usvfsException
           (linkFailedMessage "file" f.real_path f.virtual_path f.link_flags))) ∧
      replayApplied drv [] (set_mapping drv s (Mapping.mk ds (fs1 ++ f :: fs2))).1 =
        ds.map dirCall ++ fs1.map fileCall) := by
  constructor
  · intro ds1 ds2 fs d hok hfail
    have hld := linkDirectories_fail drv ds1 ds2 d hok hfail
    have htrace : set_mapping drv s (Mapping.mk (ds1 ++ d :: ds2) fs) =
        ((ensure_active_instance drv s).1 ++ [DriverCall.clearVirtualMappings] ++
          (ds1.map dirCall ++ [dirCall d]),
         .error (.usvfsException
           (linkFailedMessage "directory" d.real_path d.virtual_path d.link_flags))) := by
      simp only [set_mapping, hInit, Bool.not_true, not_true_eq_false, if_false]
      rw [hActive]
      simp only [Mapping.directories, hld]
    refine ⟨htrace, ?_⟩
    rw [htrace]
    simp only [List.append_assoc]
    rw [replayApplied_ensure]
    have hclear : replayApplied drv []
        (DriverCall.clearVirtualMappings :: (ds1.map dirCall ++ [dirCall d])) =
        replayApplied drv [] (ds1.map dirCall ++ [dirCall d]) := by
      simp [replayApplied]
    rw [show [DriverCall.clearVirtualMappings] ++ (ds1.map dirCall ++ [dirCall d]) =
      DriverCall.clearVirtualMappings :: (ds1.map dirCall ++ [dirCall d]) from rfl]
    rw [hclear, replayApplied_dirCalls drv ds1 [] [dirCall d] hok]
    simp [replayApplied, dirCall, hfail]
  · intro ds fs1 fs2 f hdok hfok hfail
    have hld := linkDirectories_ok drv ds hdok
    have hlf := linkFiles_fail drv fs1 fs2 f hfok hfail
    have htrace : set_mapping drv s (Mapping.mk ds (fs1 ++ f :: fs2)) =
        ((ensure_active_instance drv s).1 ++ [DriverCall.clearVirtualMappings] ++
          ds.map dirCall ++ (fs1.map fileCall ++ [fileCall f]),
         .error (.usvfsException
           (linkFailedMessage "file" f.real_path f.virtual_path f.link_flags))) := by
      simp only [set_mapping, hInit, Bool.not_true, not_true_eq_false, if_false]
      rw [hActive]
      simp only [Mapping.directories, Mapping.filesSeq, hld, hlf]
    refine ⟨htrace, ?_⟩
    rw [htrace]
    simp only [List.append_assoc]
    rw [replayApplied_ensure]
    have hclear : replayApplied drv []
        (DriverCall.clearVirtualMappings ::
          (ds.map dirCall ++ (fs1.map fileCall ++ [fileCall f]))) =
        replayApplied drv [] (ds.map dirCall ++ (fs1.map fileCall ++ [fileCall f])) := by
      simp [replayApplied]
    rw [show [DriverCall.clearVirtualMappings] ++
        (ds.map dirCall ++ (fs1.map fileCall ++ [fileCall f])) =
      DriverCall.clearVirtualMappings ::
        (ds.map dirCall ++ (fs1.map fileCall ++ [fileCall f])) from rfl]
    rw [hclear, replayApplied_dirCalls drv ds [] _ hdok,
      replayApplied_fileCalls drv fs1 _ _ hfok]
    simp [replayApplied, fileCall, hfail]

/-- Witness for C3: under a driver that rejects the directory rule `dirC`,
applying a mapping of `[dirA, dirC]` plus a file rule aborts at `dirC` with
its exact paths and flags in the message, leaves `dirA` applied, and never
attempts the file rule. -/
theorem set_mapping_link_failed_witness :
    set_mapping drvRejectDirC sampleSession (Mapping.mk ([dirA] ++ dirC :: []) [fileB]) =
      ((ensure_active_instance drvRejectDirC sampleSession).1 ++
        [DriverCall.clearVirtualMappings] ++
        ([dirA].map dirCall ++ [dirCall dirC]),
       .error (.usvfsException
         (linkFailedMessage "directory" dirC.real_path dirC.virtual_path
           dirC.link_flags))) ∧
    replayApplied drvRejectDirC []
        (set_mapping drvRejectDirC sampleSession
          (Mapping.mk ([dirA] ++ dirC :: []) [fileB])).1 =
      [dirA].map dirCall :=
  (set_mapping_link_failed drvRejectDirC sampleSession rfl (by decide)).1
    [dirA] [] [fileB] dirC (by decide) (by decide)

end Usvfs
